import Mathlib

/-!
Verification of the skgpu atlas addressing / identity / eviction layer
(`AtlasTypes.h`): `MaskFormat`, `AtlasGenerationCounter`, `PlotLocator`,
`AtlasLocator` and `Plot`.

Machine integers are modelled as `Nat` with explicit reduction `% 2^w`
at the points where the C++ code truncates (bit-field assignment,
`uint16_t` arithmetic, `uint64_t` increment).
-/

/-! ## MaskFormat -/

/-- Formats for masks, used by the font cache (`enum class MaskFormat`). -/
inductive MaskFormat where
  | kA8
  | kA565
  | kARGB
deriving DecidableEq, Repr

/-- The underlying integer of the 0-based `MaskFormat` enum. -/
def MaskFormat.toIndex : MaskFormat → Nat
  | .kA8 => 0
  | .kA565 => 1
  | .kARGB => 2

/-- `kMaskFormatCount = static_cast<int>(MaskFormat::kLast) + 1`. -/
def kMaskFormatCount : Nat := MaskFormat.kARGB.toIndex + 1

/-- `MaskFormatBytesPerPixel`: `return SkTo<int>(1u << static_cast<int>(format));`. -/
def MaskFormatBytesPerPixel (format : MaskFormat) : Nat :=
  1 <<< format.toIndex

/-! ## AtlasGenerationCounter

`class AtlasGenerationCounter` holds `uint64_t fGeneration{1}` and
`next()` is `return fGeneration++;`.  The counter state is a `Nat`
kept below `2^64`; `next` returns the current value and stores the
incremented value reduced mod `2^64` (uint64 wrap-around). -/

/-- `kInvalidGeneration = 0`. -/
def kInvalidGeneration : Nat := 0

/-- `next()` on a counter state: returns `(returned value, new state)`,
modelling `return fGeneration++;` on a `uint64_t`. -/
def AtlasGenerationCounter.next (s : Nat) : Nat × Nat :=
  (s % 2 ^ 64, (s + 1) % 2 ^ 64)

/-- Counter state after `n` calls to `next()`, starting from the
initial state `fGeneration{1}`. -/
def counterState : Nat → Nat
  | 0 => 1
  | n + 1 => (AtlasGenerationCounter.next (counterState n)).2

/-- The value returned by the `(n+1)`-st call to `next()` (0-indexed). -/
def returnedAt (n : Nat) : Nat :=
  (AtlasGenerationCounter.next (counterState n)).1

/-! ## PlotLocator

`class PlotLocator` packs `uint64_t fGenID:48; fPlotIndex:8; fPageIndex:8`.
Bit-field assignment truncates, hence the explicit `%` in `make`. -/

/-- Hard capacity limit `kMaxMultitexturePages = 4`. -/
def kMaxMultitexturePages : Nat := 4

/-- Hard capacity limit `kMaxPlots = 32`. -/
def kMaxPlots : Nat := 32

/-- The stored fields of a `PlotLocator` (after bit-field truncation). -/
structure PlotLocator where
  fGenID : Nat
  fPlotIndex : Nat
  fPageIndex : Nat
deriving DecidableEq, Repr

/-- The three-argument constructor
`PlotLocator(uint32_t pageIdx, uint32_t plotIdx, uint64_t generation)`:
each value is truncated to its bit-field width on assignment. -/
def PlotLocator.make (pageIdx plotIdx generation : Nat) : PlotLocator :=
  { fGenID := generation % 2 ^ 48
    fPlotIndex := plotIdx % 2 ^ 8
    fPageIndex := pageIdx % 2 ^ 8 }

/-- The default constructor `PlotLocator()`: generation
`kInvalidGeneration`, plot index 0, page index 0. -/
def PlotLocator.defaultLocator : PlotLocator :=
  { fGenID := kInvalidGeneration, fPlotIndex := 0, fPageIndex := 0 }

/-- `isValid()`: `fGenID != 0 || fPlotIndex != 0 || fPageIndex != 0`. -/
def PlotLocator.isValid (l : PlotLocator) : Bool :=
  l.fGenID != 0 || l.fPlotIndex != 0 || l.fPageIndex != 0

/-- `makeInvalid()`: zeroes all three fields. -/
def PlotLocator.makeInvalid (_l : PlotLocator) : PlotLocator :=
  { fGenID := 0, fPlotIndex := 0, fPageIndex := 0 }

/-- Accessor `pageIndex()`. -/
def PlotLocator.pageIndex (l : PlotLocator) : Nat := l.fPageIndex

/-- Accessor `plotIndex()`. -/
def PlotLocator.plotIndex (l : PlotLocator) : Nat := l.fPlotIndex

/-- Accessor `genID()`. -/
def PlotLocator.genID (l : PlotLocator) : Nat := l.fGenID

/-! ## IRect16 (the slice used by `AtlasLocator::updateRect`)

`IRect16` holds `int16_t` coordinates; atlas rectangles are always
non-negative, so the fields are modelled as `Nat` (theorems carry the
bounds the 16-bit representation imposes). -/

/-- `struct IRect16`, restricted to the non-negative values atlas code
stores in it. -/
structure IRect16 where
  fLeft : Nat
  fTop : Nat
  fRight : Nat
  fBottom : Nat
deriving DecidableEq, Repr

/-- `IRect16::width()`: `fRight - fLeft`. -/
def IRect16.width (r : IRect16) : Nat := r.fRight - r.fLeft

/-- `IRect16::height()`: `fBottom - fTop`. -/
def IRect16.height (r : IRect16) : Nat := r.fBottom - r.fTop

/-! ## AtlasLocator

`class AtlasLocator` keeps a `PlotLocator` and
`std::array<uint16_t, 4> fUVs`.  The four `uint16_t` words are
modelled as four `Nat` fields; `uint16_t` subtraction and addition
reduce mod `2^16`. -/

/-- `uint16_t` subtraction `a - b` (two's-complement wrap). -/
def wsub16 (a b : Nat) : Nat :=
  (a % 2 ^ 16 + 2 ^ 16 - b % 2 ^ 16) % 2 ^ 16

/-- `uint16_t` addition `a + b`. -/
def wadd16 (a b : Nat) : Nat :=
  (a + b) % 2 ^ 16

/-- The state of an `AtlasLocator`: the owning `PlotLocator` and the
four encoded UV words `fUVs[0..3]`. -/
structure AtlasLocator where
  fPlotLocator : PlotLocator
  fUV0 : Nat
  fUV1 : Nat
  fUV2 : Nat
  fUV3 : Nat
deriving DecidableEq, Repr

/-- The default member initialisers `fPlotLocator{0, 0, 0}` and
`fUVs{0, 0, 0, 0}`. -/
def AtlasLocator.init : AtlasLocator :=
  { fPlotLocator := PlotLocator.make 0 0 0, fUV0 := 0, fUV1 := 0, fUV2 := 0, fUV3 := 0 }

/-- `getUVs()`. -/
def AtlasLocator.getUVs (a : AtlasLocator) : Nat × Nat × Nat × Nat :=
  (a.fUV0, a.fUV1, a.fUV2, a.fUV3)

/-- `invalidatePlotLocator()`: `fPlotLocator.makeInvalid()`. -/
def AtlasLocator.invalidatePlotLocator (a : AtlasLocator) : AtlasLocator :=
  { a with fPlotLocator := a.fPlotLocator.makeInvalid }

/-- `plotLocator()`. -/
def AtlasLocator.plotLocator (a : AtlasLocator) : PlotLocator := a.fPlotLocator

/-- `pageIndex()`: `fPlotLocator.pageIndex()`. -/
def AtlasLocator.pageIndex (a : AtlasLocator) : Nat := a.fPlotLocator.pageIndex

/-- `plotIndex()`: `fPlotLocator.plotIndex()`. -/
def AtlasLocator.plotIndex (a : AtlasLocator) : Nat := a.fPlotLocator.plotIndex

/-- `genID()`: `fPlotLocator.genID()`. -/
def AtlasLocator.genID (a : AtlasLocator) : Nat := a.fPlotLocator.genID

/-- `topLeft()`: `{fUVs[0] & 0x1FFF, fUVs[1]}`. -/
def AtlasLocator.topLeft (a : AtlasLocator) : Nat × Nat :=
  (a.fUV0 &&& 0x1FFF, a.fUV1)

/-- `width()`: `fUVs[2] - fUVs[0]` as `uint16_t`. -/
def AtlasLocator.width (a : AtlasLocator) : Nat :=
  wsub16 a.fUV2 a.fUV0

/-- `height()`: `fUVs[3] - fUVs[1]` as `uint16_t`. -/
def AtlasLocator.height (a : AtlasLocator) : Nat :=
  wsub16 a.fUV3 a.fUV1

/-- `insetSrc(int padding)`: adds `padding` to `fUVs[0]`, `fUVs[1]` and
subtracts it from `fUVs[2]`, `fUVs[3]` (all `uint16_t` arithmetic). -/
def AtlasLocator.insetSrc (padding : Nat) (a : AtlasLocator) : AtlasLocator :=
  { a with
    fUV0 := wadd16 a.fUV0 padding
    fUV1 := wadd16 a.fUV1 padding
    fUV2 := wsub16 a.fUV2 padding
    fUV3 := wsub16 a.fUV3 padding }

/-- `updatePlotLocator(PlotLocator p)`: stores `p` and stamps
`page = pageIndex() << 13` (truncated to `uint16_t`) into the page
bits of `fUVs[0]` and `fUVs[2]`. -/
def AtlasLocator.updatePlotLocator (p : PlotLocator) (a : AtlasLocator) : AtlasLocator :=
  { a with
    fPlotLocator := p
    fUV0 := (a.fUV0 &&& 0x1FFF) ||| ((p.pageIndex <<< 13) % 2 ^ 16)
    fUV2 := (a.fUV2 &&& 0x1FFF) ||| ((p.pageIndex <<< 13) % 2 ^ 16) }

/-- `updateRect(skgpu::IRect16 rect)`: overwrites the low 13 bits of
`fUVs[0]` and `fUVs[2]` with `rect.fLeft`/`rect.fRight` while keeping
the top three bits, and replaces `fUVs[1]`, `fUVs[3]` wholesale. -/
def AtlasLocator.updateRect (rect : IRect16) (a : AtlasLocator) : AtlasLocator :=
  { a with
    fUV0 := (a.fUV0 &&& 0xE000) ||| rect.fLeft
    fUV1 := rect.fTop
    fUV2 := (a.fUV2 &&& 0xE000) ||| rect.fRight
    fUV3 := rect.fBottom }

/-- The page-bit field (bits 13-15) of a UV word. -/
def pageBits (u : Nat) : Nat := u &&& 0xE000

/-! ## Claims C10, C5, C9, C4 -/

/-- C10: `MaskFormatBytesPerPixel` returns 1 for `kA8`, 2 for `kA565`,
4 for `kARGB`, i.e. `2 ^ toIndex` for every valid format. -/
theorem C10_mask_format_bytes_per_pixel :
    MaskFormatBytesPerPixel .kA8 = 1 ∧
    MaskFormatBytesPerPixel .kA565 = 2 ∧
    MaskFormatBytesPerPixel .kARGB = 4 ∧
    ∀ f : MaskFormat, MaskFormatBytesPerPixel f = 2 ^ f.toIndex := by
  refine ⟨rfl, rfl, rfl, ?_⟩
  intro f
  cases f <;> rfl

/-- C5: `isValid()` is false exactly on the all-zero triple; in
particular `(page=2, cell=5, generation=0)` is valid and the
default-constructed locator is not. -/
theorem C5_isValid_iff_not_all_zero :
    (∀ l : PlotLocator,
      l.isValid = false ↔ l.fPageIndex = 0 ∧ l.fPlotIndex = 0 ∧ l.fGenID = 0) ∧
    (PlotLocator.make 2 5 0).isValid = true ∧
    PlotLocator.defaultLocator.isValid = false := by
  refine ⟨?_, by decide, by decide⟩
  intro l
  simp [PlotLocator.isValid]
  tauto

/-- C9: `makeInvalid()` yields the default-constructed locator (all
three accessors zero, `isValid` false), and
`invalidatePlotLocator()` invalidates the embedded locator while
leaving the four UV words untouched. -/
theorem C9_makeInvalid_and_invalidatePlotLocator :
    (∀ l : PlotLocator,
      l.makeInvalid = PlotLocator.defaultLocator ∧
      l.makeInvalid.pageIndex = 0 ∧
      l.makeInvalid.plotIndex = 0 ∧
      l.makeInvalid.genID = 0 ∧
      l.makeInvalid.isValid = false) ∧
    (∀ a : AtlasLocator,
      a.invalidatePlotLocator.fPlotLocator.isValid = false ∧
      a.invalidatePlotLocator.getUVs = a.getUVs) := by
  constructor
  · intro l
    refine ⟨rfl, rfl, rfl, rfl, rfl⟩
  · intro a
    refine ⟨rfl, rfl⟩

/-- The counter state after `n` calls is `(1 + n) % 2^64`. -/
theorem counterState_closed_form (n : Nat) : counterState n = (1 + n) % 2 ^ 64 := by
  induction n with
  | zero => rfl
  | succ k ih =>
    simp only [counterState, AtlasGenerationCounter.next, ih]
    omega

/-- The value returned by the `(n+1)`-st call is `(1 + n) % 2^64`. -/
theorem returnedAt_closed_form (n : Nat) : returnedAt n = (1 + n) % 2 ^ 64 := by
  simp only [returnedAt, AtlasGenerationCounter.next, counterState_closed_form]
  omega

/-- C4 counterexample: the `uint64_t` counter wraps, so the call at
index `2^64 - 1` returns the reserved value 0, which is moreover not
greater than the value 1 returned by the very first call. -/
theorem C4_counterexample :
    returnedAt (2 ^ 64 - 1) = 0 ∧
    returnedAt 0 = 1 ∧
    ¬ returnedAt 0 < returnedAt (2 ^ 64 - 1) := by
  have h1 : returnedAt (2 ^ 64 - 1) = 0 := by
    rw [returnedAt_closed_form]
    norm_num
  have h0 : returnedAt 0 = 1 := by
    rw [returnedAt_closed_form]
    norm_num
  exact ⟨h1, h0, by omega⟩

/-- C4 amended: within the first `2^64 - 1` calls to `next()` the
returned values are strictly increasing, pairwise distinct, and never
the reserved value 0. -/
theorem C4_next_monotone (i j : Nat) (hij : i < j) (hj : j < 2 ^ 64 - 1) :
    returnedAt i < returnedAt j ∧
    returnedAt i ≠ 0 ∧
    returnedAt j ≠ 0 ∧
    returnedAt i ≠ returnedAt j := by
  rw [returnedAt_closed_form, returnedAt_closed_form]
  omega

/-- C4 witness: the first two calls return 1 and 2. -/
theorem C4_next_monotone_witness :
    0 < 1 ∧ 1 < 2 ^ 64 - 1 ∧
    (returnedAt 0 < returnedAt 1 ∧
     returnedAt 0 ≠ 0 ∧
     returnedAt 1 ≠ 0 ∧
     returnedAt 0 ≠ returnedAt 1) :=
  ⟨by norm_num, by norm_num, C4_next_monotone 0 1 (by norm_num) (by norm_num)⟩

/-! ## Bit-arithmetic toolbox for the UV encoding -/

/-- Masking with a shifted mask extracts the shifted field. -/
theorem and_mask_shiftLeft (a m k : Nat) :
    a &&& (m <<< k) = ((a >>> k) &&& m) <<< k := by
  apply Nat.eq_of_testBit_eq
  intro i
  simp only [Nat.testBit_and, Nat.testBit_shiftLeft, Nat.testBit_shiftRight]
  by_cases h : k ≤ i
  · have hki : k + (i - k) = i := by omega
    simp [h, hki, Bool.and_comm, Bool.and_left_comm]
  · simp [h]

/-- `x & 0x1FFF` keeps the low 13 bits. -/
theorem and_0x1FFF (x : Nat) : x &&& 0x1FFF = x % 8192 := by
  have h := Nat.and_pow_two_sub_one_eq_mod x 13
  norm_num at h
  exact h

/-- `x & 0xE000` keeps bits 13-15. -/
theorem and_0xE000 (x : Nat) : x &&& 0xE000 = x / 8192 % 8 * 8192 := by
  have hm : (0xE000 : Nat) = 7 <<< 13 := by decide
  rw [hm, and_mask_shiftLeft, Nat.shiftLeft_eq, Nat.shiftRight_eq_div_pow]
  have h7 := Nat.and_pow_two_sub_one_eq_mod (x / 2 ^ 13) 3
  norm_num at h7 ⊢
  rw [h7]

/-- Or-ing a value below `2^13` into a multiple of `2^13` is addition. -/
theorem or_low13 (y z : Nat) (hz : z < 8192) : 8192 * y ||| z = 8192 * y + z := by
  have hz13 : z < 2 ^ 13 := by omega
  have h := Nat.mul_add_lt_is_or hz13 y
  norm_num at h
  omega

/-- Effect of `updatePlotLocator` page stamping on one UV word. -/
theorem stamp_word (u pi : Nat) (hpi : pi < 8) :
    (u &&& 0x1FFF) ||| ((pi <<< 13) % 2 ^ 16) = 8192 * pi + u % 8192 := by
  have hpg : (pi <<< 13) % 2 ^ 16 = 8192 * pi := by
    rw [Nat.shiftLeft_eq]
    have : pi * 2 ^ 13 < 2 ^ 16 := by omega
    rw [Nat.mod_eq_of_lt this]
    ring
  rw [hpg, and_0x1FFF, Nat.lor_comm, or_low13 _ _ (Nat.mod_lt _ (by norm_num))]

/-- Effect of `updateRect` low-bit replacement on one UV word. -/
theorem restamp_word (u z : Nat) (hz : z < 8192) :
    (u &&& 0xE000) ||| z = 8192 * (u / 8192 % 8) + z := by
  rw [and_0xE000, Nat.mul_comm, or_low13 _ _ hz]

/-! ## Claims C2, C3, C6, C7 -/

/-- C2: after stamping any page index below 4 and then placing an
in-range rectangle, `width()` is the plain `uint16_t` subtraction of
the raw words and equals `rect.fRight - rect.fLeft`: the page bits
cancel. -/
theorem C2_width_page_bit_cancellation
    (a : AtlasLocator) (pl : PlotLocator) (rect : IRect16)
    (hpi : pl.pageIndex < 4)
    (hlr : rect.fLeft ≤ rect.fRight)
    (hr : rect.fRight ≤ 0x1FFF) :
    ((a.updatePlotLocator pl).updateRect rect).width
      = wsub16 ((a.updatePlotLocator pl).updateRect rect).fUV2
          ((a.updatePlotLocator pl).updateRect rect).fUV0 ∧
    ((a.updatePlotLocator pl).updateRect rect).width
      = rect.fRight - rect.fLeft := by
  refine ⟨rfl, ?_⟩
  have e0 : (a.updatePlotLocator pl).fUV0 = 8192 * pl.pageIndex + a.fUV0 % 8192 :=
    stamp_word _ _ (by omega)
  have e2 : (a.updatePlotLocator pl).fUV2 = 8192 * pl.pageIndex + a.fUV2 % 8192 :=
    stamp_word _ _ (by omega)
  have f0 : ((a.updatePlotLocator pl).updateRect rect).fUV0
      = 8192 * ((a.updatePlotLocator pl).fUV0 / 8192 % 8) + rect.fLeft :=
    restamp_word _ _ (by omega)
  have f2 : ((a.updatePlotLocator pl).updateRect rect).fUV2
      = 8192 * ((a.updatePlotLocator pl).fUV2 / 8192 % 8) + rect.fRight :=
    restamp_word _ _ (by omega)
  rw [AtlasLocator.width, f0, f2, e0, e2, wsub16]
  omega

/-- C2 witness: page index 2, rectangle (10, 20, 100, 50): the width
is 90 for that page stamping. -/
theorem C2_width_page_bit_cancellation_witness :
    ((AtlasLocator.init.updatePlotLocator (PlotLocator.make 2 3 7)).updateRect
        (IRect16.mk 10 20 100 50)).width = 90 :=
  (C2_width_page_bit_cancellation AtlasLocator.init (PlotLocator.make 2 3 7)
    (IRect16.mk 10 20 100 50) (by decide) (by decide) (by decide)).2

/-- C3 counterexample: stamping page index 1 sets the page bits of the
U words `fUVs[0]` and `fUVs[2]`, but the V word `fUVs[1]` does not
carry that pattern, contradicting the all-four-fields claim. -/
theorem C3_counterexample :
    (PlotLocator.make 1 0 5).pageIndex = 1 ∧
    pageBits (AtlasLocator.init.updatePlotLocator (PlotLocator.make 1 0 5)).fUV0
      = 1 <<< 13 ∧
    pageBits (AtlasLocator.init.updatePlotLocator (PlotLocator.make 1 0 5)).fUV2
      = 1 <<< 13 ∧
    ¬ pageBits (AtlasLocator.init.updatePlotLocator (PlotLocator.make 1 0 5)).fUV1
      = 1 <<< 13 := by
  decide

/-- C3 amended: after `updatePlotLocator` with a locator of page index
`P < 4`, the two U words `fUVs[0]` and `fUVs[2]` carry the pattern
`P << 13` in their page bits, and this persists across a subsequent
in-range `updateRect` and a subsequent in-precondition `insetSrc`. -/
theorem C3_u_words_carry_page_bits
    (a : AtlasLocator) (pl : PlotLocator) (rect : IRect16) (padding : Nat)
    (hpi : pl.pageIndex < 4)
    (hlr : rect.fLeft ≤ rect.fRight)
    (hr : rect.fRight ≤ 0x1FFF)
    (hpadw : 2 * padding ≤ rect.fRight - rect.fLeft) :
    pageBits (a.updatePlotLocator pl).fUV0 = pl.pageIndex <<< 13 ∧
    pageBits (a.updatePlotLocator pl).fUV2 = pl.pageIndex <<< 13 ∧
    pageBits ((a.updatePlotLocator pl).updateRect rect).fUV0 = pl.pageIndex <<< 13 ∧
    pageBits ((a.updatePlotLocator pl).updateRect rect).fUV2 = pl.pageIndex <<< 13 ∧
    pageBits (((a.updatePlotLocator pl).updateRect rect).insetSrc padding).fUV0
      = pl.pageIndex <<< 13 ∧
    pageBits (((a.updatePlotLocator pl).updateRect rect).insetSrc padding).fUV2
      = pl.pageIndex <<< 13 := by
  have e0 : (a.updatePlotLocator pl).fUV0 = 8192 * pl.pageIndex + a.fUV0 % 8192 :=
    stamp_word _ _ (by omega)
  have e2 : (a.updatePlotLocator pl).fUV2 = 8192 * pl.pageIndex + a.fUV2 % 8192 :=
    stamp_word _ _ (by omega)
  have f0 : ((a.updatePlotLocator pl).updateRect rect).fUV0
      = 8192 * pl.pageIndex + rect.fLeft := by
    calc ((a.updatePlotLocator pl).updateRect rect).fUV0
        = 8192 * ((a.updatePlotLocator pl).fUV0 / 8192 % 8) + rect.fLeft :=
          restamp_word _ _ (by omega)
      _ = 8192 * pl.pageIndex + rect.fLeft := by rw [e0]; omega
  have f2 : ((a.updatePlotLocator pl).updateRect rect).fUV2
      = 8192 * pl.pageIndex + rect.fRight := by
    calc ((a.updatePlotLocator pl).updateRect rect).fUV2
        = 8192 * ((a.updatePlotLocator pl).fUV2 / 8192 % 8) + rect.fRight :=
          restamp_word _ _ (by omega)
      _ = 8192 * pl.pageIndex + rect.fRight := by rw [e2]; omega
  have g0 : (((a.updatePlotLocator pl).updateRect rect).insetSrc padding).fUV0
      = wadd16 ((a.updatePlotLocator pl).updateRect rect).fUV0 padding := rfl
  have g2 : (((a.updatePlotLocator pl).updateRect rect).insetSrc padding).fUV2
      = wsub16 ((a.updatePlotLocator pl).updateRect rect).fUV2 padding := rfl
  refine ⟨?_, ?_, ?_, ?_, ?_, ?_⟩
  · rw [pageBits, e0, and_0xE000, Nat.shiftLeft_eq]; omega
  · rw [pageBits, e2, and_0xE000, Nat.shiftLeft_eq]; omega
  · rw [pageBits, f0, and_0xE000, Nat.shiftLeft_eq]; omega
  · rw [pageBits, f2, and_0xE000, Nat.shiftLeft_eq]; omega
  · rw [pageBits, g0, f0, wadd16, and_0xE000, Nat.shiftLeft_eq]; omega
  · rw [pageBits, g2, f2, wsub16, and_0xE000, Nat.shiftLeft_eq]; omega

/-- C3 amended witness: page index 3, rectangle (10, 20, 100, 50),
padding 5: the page bits of `fUVs[0]` stay `3 << 13` after all three
operations. -/
theorem C3_u_words_carry_page_bits_witness :
    pageBits ((((AtlasLocator.init.updatePlotLocator
        (PlotLocator.make 3 0 5)).updateRect
          (IRect16.mk 10 20 100 50)).insetSrc 5)).fUV0 = 3 <<< 13 :=
  (C3_u_words_carry_page_bits AtlasLocator.init (PlotLocator.make 3 0 5)
    (IRect16.mk 10 20 100 50) 5 (by decide) (by decide) (by decide)
    (by decide)).2.2.2.2.1

/-- C6: `updateRect` with an in-range rectangle overwrites the bounds
(top-left, width, height) while leaving the page bits of the U words
and `pageIndex()` unchanged; stated for locators whose two U words
carry consistent page bits, the invariant every constructible
`AtlasLocator` satisfies. -/
theorem C6_updateRect_overwrites_bounds_preserves_page
    (a : AtlasLocator) (rect : IRect16)
    (hcons : pageBits a.fUV0 = pageBits a.fUV2)
    (hlr : rect.fLeft ≤ rect.fRight)
    (hr : rect.fRight ≤ 0x1FFF)
    (htb : rect.fTop ≤ rect.fBottom)
    (hb : rect.fBottom < 2 ^ 16) :
    (a.updateRect rect).topLeft = (rect.fLeft, rect.fTop) ∧
    (a.updateRect rect).width = rect.fRight - rect.fLeft ∧
    (a.updateRect rect).height = rect.fBottom - rect.fTop ∧
    pageBits (a.updateRect rect).fUV0 = pageBits a.fUV0 ∧
    pageBits (a.updateRect rect).fUV2 = pageBits a.fUV2 ∧
    (a.updateRect rect).pageIndex = a.pageIndex := by
  have f0 : (a.updateRect rect).fUV0 = 8192 * (a.fUV0 / 8192 % 8) + rect.fLeft :=
    restamp_word _ _ (by omega)
  have f2 : (a.updateRect rect).fUV2 = 8192 * (a.fUV2 / 8192 % 8) + rect.fRight :=
    restamp_word _ _ (by omega)
  rw [pageBits, pageBits, and_0xE000, and_0xE000] at hcons
  refine ⟨?_, ?_, ?_, ?_, ?_, rfl⟩
  · have hx : (a.updateRect rect).fUV0 &&& 0x1FFF = rect.fLeft := by
      rw [f0, and_0x1FFF]; omega
    have hy : (a.updateRect rect).fUV1 = rect.fTop := rfl
    rw [AtlasLocator.topLeft, hx, hy]
  · rw [AtlasLocator.width, f0, f2, wsub16]; omega
  · have h1 : (a.updateRect rect).fUV1 = rect.fTop := rfl
    have h3 : (a.updateRect rect).fUV3 = rect.fBottom := rfl
    rw [AtlasLocator.height, h1, h3, wsub16]; omega
  · rw [pageBits, pageBits, f0, and_0xE000, and_0xE000]; omega
  · rw [pageBits, pageBits, f2, and_0xE000, and_0xE000]; omega

/-- C6 witness: placing (3, 4, 10, 9) in a fresh locator gives
top-left (3, 4), width 7, height 5 and leaves the (zero) page bits
and page index alone. -/
theorem C6_updateRect_overwrites_bounds_preserves_page_witness :
    (AtlasLocator.init.updateRect (IRect16.mk 3 4 10 9)).topLeft = (3, 4) ∧
    (AtlasLocator.init.updateRect (IRect16.mk 3 4 10 9)).width = 7 ∧
    (AtlasLocator.init.updateRect (IRect16.mk 3 4 10 9)).height = 5 :=
  have h := C6_updateRect_overwrites_bounds_preserves_page AtlasLocator.init
    (IRect16.mk 3 4 10 9) (by decide) (by decide) (by decide) (by decide) (by decide)
  ⟨h.1, h.2.1, h.2.2.1⟩

/-- C7: under its preconditions, `insetSrc(padding)` shrinks the
rectangle symmetrically: width and height drop by `2 * padding`, the
top-left corner moves by `(+padding, +padding)`, and the page bits of
the U words are untouched; stated for locators holding an in-range
rectangle (consistent page bits, ordered 13-bit column offsets,
ordered rows, 16-bit words). -/
theorem C7_insetSrc_shrinks_symmetrically
    (a : AtlasLocator) (padding : Nat)
    (h0 : a.fUV0 < 2 ^ 16) (h1 : a.fUV1 < 2 ^ 16)
    (h2 : a.fUV2 < 2 ^ 16) (h3 : a.fUV3 < 2 ^ 16)
    (hcons : pageBits a.fUV0 = pageBits a.fUV2)
    (hlow : a.fUV0 % 8192 ≤ a.fUV2 % 8192)
    (htb : a.fUV1 ≤ a.fUV3)
    (hw : 2 * padding ≤ a.width)
    (hh : 2 * padding ≤ a.height) :
    (a.insetSrc padding).width = a.width - 2 * padding ∧
    (a.insetSrc padding).height = a.height - 2 * padding ∧
    (a.insetSrc padding).topLeft.1 = a.topLeft.1 + padding ∧
    (a.insetSrc padding).topLeft.2 = a.topLeft.2 + padding ∧
    pageBits (a.insetSrc padding).fUV0 = pageBits a.fUV0 ∧
    pageBits (a.insetSrc padding).fUV2 = pageBits a.fUV2 := by
  rw [pageBits, pageBits, and_0xE000, and_0xE000] at hcons
  have hq : a.fUV0 / 8192 = a.fUV2 / 8192 := by omega
  have hle : a.fUV0 ≤ a.fUV2 := by omega
  have hwidth : a.width = a.fUV2 - a.fUV0 := by
    rw [AtlasLocator.width, wsub16]; omega
  have hheight : a.height = a.fUV3 - a.fUV1 := by
    rw [AtlasLocator.height, wsub16]; omega
  rw [hwidth] at hw
  rw [hheight] at hh
  have hsame : a.fUV2 - a.fUV0 = a.fUV2 % 8192 - a.fUV0 % 8192 := by omega
  have hlp : a.fUV0 % 8192 + padding ≤ 8191 := by omega
  have hp2 : padding ≤ a.fUV2 % 8192 := by omega
  have i0 : (a.insetSrc padding).fUV0 = a.fUV0 + padding := by
    show wadd16 a.fUV0 padding = a.fUV0 + padding
    rw [wadd16]; omega
  have i1 : (a.insetSrc padding).fUV1 = a.fUV1 + padding := by
    show wadd16 a.fUV1 padding = a.fUV1 + padding
    rw [wadd16]; omega
  have i2 : (a.insetSrc padding).fUV2 = a.fUV2 - padding := by
    show wsub16 a.fUV2 padding = a.fUV2 - padding
    rw [wsub16]; omega
  have i3 : (a.insetSrc padding).fUV3 = a.fUV3 - padding := by
    show wsub16 a.fUV3 padding = a.fUV3 - padding
    rw [wsub16]; omega
  refine ⟨?_, ?_, ?_, ?_, ?_, ?_⟩
  · rw [AtlasLocator.width, i0, i2, hwidth, wsub16]
    omega
  · rw [AtlasLocator.height, i1, i3, hheight, wsub16]
    omega
  · simp only [AtlasLocator.topLeft]
    rw [i0, and_0x1FFF, and_0x1FFF]
    omega
  · simp only [AtlasLocator.topLeft]
    exact i1
  · rw [pageBits, pageBits, i0, and_0xE000, and_0xE000]
    omega
  · rw [pageBits, pageBits, i2, and_0xE000, and_0xE000]
    omega

/-- C7 witness: UV words (5, 6, 105, 106) inset by padding 10 give
width 80 and top-left column 15. -/
theorem C7_insetSrc_shrinks_symmetrically_witness :
    ((AtlasLocator.mk PlotLocator.defaultLocator 5 6 105 106).insetSrc 10).width
        = (AtlasLocator.mk PlotLocator.defaultLocator 5 6 105 106).width - 20 ∧
    ((AtlasLocator.mk PlotLocator.defaultLocator 5 6 105 106).insetSrc 10).topLeft.1
        = (AtlasLocator.mk PlotLocator.defaultLocator 5 6 105 106).topLeft.1 + 10 :=
  have h := C7_insetSrc_shrinks_symmetrically
    (AtlasLocator.mk PlotLocator.defaultLocator 5 6 105 106) 10
    (by decide) (by decide) (by decide) (by decide) (by decide) (by decide)
    (by decide) (by decide) (by decide)
  ⟨h.1, h.2.2.1⟩

/-! ## Plot (the Cell)

`AtlasTypes.h` only declares `Plot::resetRects` and
`Plot::addSubImage`; their bodies live in the implementation file that
is not part of this tree, so they are modelled from the spec below.
The packing sub-allocator is the external capability
`tryPlace(width, height) -> Option (x, y)` consumed per Cell, kept
abstract as a state type `PK` with a caller-supplied transition. -/

/-- The state of a `Plot`: page/plot index, the shared generation
counter (one per atlas; for a single modelled plot its state lives
here), current generation and `PlotLocator`, the packing
sub-allocator state, the dirty-rectangle union (`none` = empty) and
the pixel staging buffer. -/
structure Plot (PK : Type) where
  fPageIndex : Nat
  fPlotIndex : Nat
  fGenerationCounter : Nat
  fGenID : Nat
  fPlotLocator : PlotLocator
  fRectanizer : PK
  fDirtyRect : Option IRect16
  fData : Nat → Nat → Nat

/-- Modelled from the spec: a Fresh cell mints its generation from the
counter at construction and stamps its locator with it (`Plot`
constructor, defined outside this tree). -/
def Plot.make (PK : Type) (pageIdx plotIdx counter : Nat) (pk : PK) : Plot PK :=
  { fPageIndex := pageIdx
    fPlotIndex := plotIdx
    fGenID := (AtlasGenerationCounter.next counter).1
    fGenerationCounter := (AtlasGenerationCounter.next counter).2
    fPlotLocator := PlotLocator.make pageIdx plotIdx (AtlasGenerationCounter.next counter).1
    fRectanizer := pk
    fDirtyRect := none
    fData := fun _ _ => 0 }

/-- The union of the dirty accumulator with a newly placed rectangle. -/
def joinDirty (d : Option IRect16) (r : IRect16) : IRect16 :=
  match d with
  | none => r
  | some q =>
      { fLeft := min q.fLeft r.fLeft
        fTop := min q.fTop r.fTop
        fRight := max q.fRight r.fRight
        fBottom := max q.fBottom r.fBottom }

/-- Modelled from the spec: `Plot::resetRects` (body not under this
tree) discards the packing sub-allocator state, clears the
dirty-rectangle union, asks the Generation Counter for a new value and
rebuilds the `PlotLocator` with the same page/plot index and the new
generation. -/
def Plot.resetRects {PK : Type} (freshPK : PK) (p : Plot PK) : Plot PK :=
  { p with
    fRectanizer := freshPK
    fDirtyRect := none
    fGenID := (AtlasGenerationCounter.next p.fGenerationCounter).1
    fGenerationCounter := (AtlasGenerationCounter.next p.fGenerationCounter).2
    fPlotLocator := PlotLocator.make p.fPageIndex p.fPlotIndex
      (AtlasGenerationCounter.next p.fGenerationCounter).1 }

/-- Modelled from the spec: `Plot::addSubImage` (body not under this
tree) delegates to the packing sub-allocator; on success it copies the
pixels into the staging buffer at the placement, extends the dirty
union, and stamps an `AtlasLocator` with the current `PlotLocator` and
the placed rectangle; on failure it returns failure and leaves all
state unchanged. -/
def Plot.addSubImage {PK : Type}
    (tryPlace : Nat → Nat → PK → Option (Nat × Nat × PK))
    (w h : Nat) (image : Nat → Nat → Nat) (p : Plot PK) :
    Option AtlasLocator × Plot PK :=
  match tryPlace w h p.fRectanizer with
  | none => (none, p)
  | some (x, y, pk) =>
      let rect : IRect16 := { fLeft := x, fTop := y, fRight := x + w, fBottom := y + h }
      let loc := (AtlasLocator.init.updatePlotLocator p.fPlotLocator).updateRect rect
      (some loc,
        { p with
          fRectanizer := pk
          fDirtyRect := some (joinDirty p.fDirtyRect rect)
          fData := fun i j =>
            if x ≤ i ∧ i < x + w ∧ y ≤ j ∧ j < y + h then
              image (i - x) (j - y)
            else
              p.fData i j })

/-! ## Claims C1, C8 -/

/-- C1: for a plot whose locator holds generation `G` and whose
counter is in sync (the plot holds the latest minted generation),
`resetRects()` keeps the page and plot index, bumps the generation to
exactly `G + 1`, and every locator captured earlier (generation at
most `G`) compares unequal against the post-eviction locator. -/
theorem C1_resetRects_bumps_generation {PK : Type} (freshPK : PK) (p : Plot PK)
    (hsync : p.fGenerationCounter = p.fGenID + 1)
    (hbound : p.fGenID + 1 < 2 ^ 48)
    (hloc : p.fPlotLocator = PlotLocator.make p.fPageIndex p.fPlotIndex p.fGenID) :
    (p.resetRects freshPK).fPlotLocator.pageIndex = p.fPlotLocator.pageIndex ∧
    (p.resetRects freshPK).fPlotLocator.plotIndex = p.fPlotLocator.plotIndex ∧
    (p.resetRects freshPK).fPlotLocator.genID = p.fGenID + 1 ∧
    (p.resetRects freshPK).fGenID = p.fGenID + 1 ∧
    p.fPlotLocator ≠ (p.resetRects freshPK).fPlotLocator ∧
    ∀ old : PlotLocator, old.genID ≤ p.fGenID →
      old ≠ (p.resetRects freshPK).fPlotLocator := by
  have hr : (p.resetRects freshPK).fPlotLocator
      = PlotLocator.make p.fPageIndex p.fPlotIndex (p.fGenerationCounter % 2 ^ 64) := rfl
  have hc : p.fGenerationCounter % 2 ^ 64 = p.fGenID + 1 := by
    rw [hsync]
    exact Nat.mod_eq_of_lt (by omega)
  have hgen : (p.resetRects freshPK).fPlotLocator.genID = p.fGenID + 1 := by
    rw [hr, hc, PlotLocator.genID, PlotLocator.make]
    exact Nat.mod_eq_of_lt hbound
  have hneq : ∀ old : PlotLocator, old.genID ≤ p.fGenID →
      old ≠ (p.resetRects freshPK).fPlotLocator := by
    intro old hold heq
    rw [heq, hgen] at hold
    omega
  refine ⟨?_, ?_, hgen, ?_, ?_, hneq⟩
  · rw [hr, hloc]
    rfl
  · rw [hr, hloc]
    rfl
  · show (p.resetRects freshPK).fGenID = p.fGenID + 1
    have : (p.resetRects freshPK).fGenID = p.fGenerationCounter % 2 ^ 64 := rfl
    rw [this, hc]
  · apply hneq
    rw [hloc, PlotLocator.genID, PlotLocator.make]
    exact Nat.le_of_eq (Nat.mod_eq_of_lt (by omega))

/-- C1 witness: a plot freshly built at page 1, plot 2 with counter
value 7 has generation 7; after `resetRects` its locator carries
generation 8 and differs from the pre-eviction locator. -/
theorem C1_resetRects_bumps_generation_witness :
    ((Plot.make Unit 1 2 7 ()).resetRects ()).fPlotLocator.genID = 8 ∧
    (Plot.make Unit 1 2 7 ()).fPlotLocator
      ≠ ((Plot.make Unit 1 2 7 ()).resetRects ()).fPlotLocator :=
  have h := C1_resetRects_bumps_generation () (Plot.make Unit 1 2 7 ())
    (by decide) (by decide) (by decide)
  ⟨h.2.2.1, h.2.2.2.2.1⟩

/-- C8: a failed `addSubImage` (the packer finds no placement) returns
failure and leaves the plot state — dirty-rectangle union, packer
state, staging buffer, locator — exactly as it was. -/
theorem C8_addSubImage_failure_leaves_state {PK : Type}
    (tryPlace : Nat → Nat → PK → Option (Nat × Nat × PK))
    (w h : Nat) (image : Nat → Nat → Nat) (p : Plot PK)
    (hfail : tryPlace w h p.fRectanizer = none) :
    p.addSubImage tryPlace w h image = (none, p) := by
  rw [Plot.addSubImage, hfail]

/-- C8 witness: with an always-failing packer the plot comes back
verbatim. -/
theorem C8_addSubImage_failure_leaves_state_witness :
    (Plot.make Unit 0 0 1 ()).addSubImage (fun _ _ _ => none) 5 5 (fun _ _ => 0)
      = (none, Plot.make Unit 0 0 1 ()) :=
  C8_addSubImage_failure_leaves_state (fun _ _ _ => none) 5 5 (fun _ _ => 0)
    (Plot.make Unit 0 0 1 ()) rfl
